/-
Verification of the scenario graph editor (src/frontend/js/scenario_editor.js)
of the VR_platform repository.

Shallow embedding notes:
* JavaScript numbers are modelled as rationals (ℚ); array-of-objects state
  becomes Lean lists of structures and explicit state passing.
* `Date.now()` is modelled by an explicit `now : Nat` argument threaded into
  the operations that call it.
* DOM / canvas side effects (draw, updateStats, showNodeProperties) have no
  effect on the graph state and are omitted; notifications
  (VRARPlatform.showNotification) are modelled as an explicit output list.
* The JS field names `from` / `to` of a connection are Lean keywords, so they
  are rendered `fromId` / `toId`.
-/
import Mathlib

namespace VRPlatform

/-- Kind-specific part of a node's property bag, from
`getDefaultProperties`'s switch: the `state` / `action` / `condition` /
`event` cases add extra fields; every other type (including `start` and
`end`, which have no case) gets only the base properties.
JS object-valued fields (`parameters`, `data`) carry no graph-relevant
structure and are modelled as absent. -/
inductive ExtraProps where
  | base
  | stateProps (transitions : List Nat) (onEnter onExit onUpdate : String)
      (isInitial : Bool)
  | actionProps (actionType : String) (delay : ℚ) (repeatCount : ℚ)
  | conditionProps (conditionType expression trueState falseState : String)
  | eventProps (eventType trigger targetState : String)
deriving DecidableEq

/-- The base property bag built in `getDefaultProperties` (`id`, `name`,
`description`, `enabled`) together with the kind-specific extras. -/
structure NodeProps where
  pid : Nat
  name : String
  description : String
  enabled : Bool
  extra : ExtraProps
deriving DecidableEq

/-- A node of the scenario graph, as constructed by `addNode`. -/
structure Node where
  id : Nat
  type : String
  x : ℚ
  y : ℚ
  width : ℚ
  height : ℚ
  title : String
  color : String
  properties : NodeProps
deriving DecidableEq

/-- A directed connection; JS fields `from` / `to` hold node ids. -/
structure Connection where
  fromId : Nat
  toId : Nat
  color : String
  dashed : Bool
deriving DecidableEq

/-- A user-facing notification: `VRARPlatform.showNotification(message, severity)`. -/
structure Notif where
  message : String
  severity : String
deriving DecidableEq

/-- The mutable editor state relevant to the graph model: `this.nodes`,
`this.connections`, the viewport fields and the pinch-zoom memory
(`this.lastPinchDistance`, initially `undefined`, here `none`). -/
structure ScenarioEditor where
  nodes : List Node
  connections : List Connection
  scale : ℚ
  panX : ℚ
  panY : ℚ
  lastPinchDistance : Option ℚ
deriving DecidableEq

/-- The editor's initial state from the constructor: empty graph,
`scale = 1`, `panX = panY = 0`. -/
def initialEditor : ScenarioEditor :=
  { nodes := [], connections := [], scale := 1, panX := 0, panY := 0,
    lastPinchDistance := none }

/-- `getNodeTitle(type)`: lookup in the `titles` map with fallback `Узел`. -/
def getNodeTitle (type : String) : String :=
  if type = "state" then "Состояние"
  else if type = "action" then "Действие"
  else if type = "condition" then "Условие"
  else if type = "event" then "Событие"
  else if type = "start" then "Старт"
  else if type = "end" then "Конец"
  else "Узел"

/-- `getNodeColor(type)`: lookup in the `colors` map with fallback `#95a5a6`. -/
def getNodeColor (type : String) : String :=
  if type = "state" then "#3498db"
  else if type = "action" then "#2ecc71"
  else if type = "condition" then "#f39c12"
  else if type = "event" then "#9b59b6"
  else if type = "start" then "#27ae60"
  else if type = "end" then "#e74c3c"
  else "#95a5a6"

/-- `getDefaultProperties(type)`: base properties (`id: Date.now()`, `name`,
`description`, `enabled`) plus the kind-specific switch; the default branch
returns the base properties alone. -/
def getDefaultProperties (now : Nat) (type : String) : NodeProps :=
  let base : NodeProps :=
    { pid := now, name := getNodeTitle type, description := "", enabled := true,
      extra := ExtraProps.base }
  if type = "state" then
    { base with extra := ExtraProps.stateProps [] "" "" "" (type = "start") }
  else if type = "action" then
    { base with extra := ExtraProps.actionProps "custom" 0 1 }
  else if type = "condition" then
    { base with extra := ExtraProps.conditionProps "boolean" "" "" "" }
  else if type = "event" then
    { base with extra := ExtraProps.eventProps "custom" "" "" }
  else
    base

/-- The node literal constructed inside `addNode(type, x, y)`:
`id: Date.now()`, fixed 120×80 size, kind-derived title, color and
properties. -/
def mkNode (now : Nat) (type : String) (x y : ℚ) : Node :=
  { id := now, type := type, x := x, y := y, width := 120, height := 80,
    title := getNodeTitle type, color := getNodeColor type,
    properties := getDefaultProperties now type }

/-- `addNode(type, x, y)`: build the node and push it onto `this.nodes`
(the trailing `updateStats` / `draw` / `showNodeProperties` calls touch
only the DOM). -/
def addNode (now : Nat) (type : String) (x y : ℚ) (ed : ScenarioEditor) :
    ScenarioEditor :=
  { ed with nodes := ed.nodes ++ [mkNode now type x y] }

/-- The bounding-box test used by `getNodeAt`:
`x >= node.x && x <= node.x + node.width && y >= node.y && y <= node.y + node.height`. -/
def nodeContains (node : Node) (x y : ℚ) : Bool :=
  decide (node.x ≤ x) && decide (x ≤ node.x + node.width) &&
  decide (node.y ≤ y) && decide (y ≤ node.y + node.height)

/-- `getNodeAt(x, y)`: scan `this.nodes` from the last index down to 0 and
return the first node whose bounding box contains the point, else `null`;
equivalently, the first hit in the reversed list. -/
def getNodeAt (nodes : List Node) (x y : ℚ) : Option Node :=
  nodes.reverse.find? (fun node => nodeContains node x y)

/-- `removeNode(node)`: look the node up with `indexOf`; when present,
`splice` it out (remove the first occurrence) and re-filter
`this.connections`, keeping `conn.from !== node.id && conn.to !== node.id`;
when absent (`indexOf === -1`) nothing happens. -/
def removeNode (node : Node) (ed : ScenarioEditor) : ScenarioEditor :=
  if node ∈ ed.nodes then
    { ed with
      nodes := ed.nodes.erase node,
      connections := ed.connections.filter
        (fun conn => !(conn.fromId == node.id) && !(conn.toId == node.id)) }
  else ed

/-- `onWheel(e)`: scale by 1.1 (deltaY < 0) or 1/1.1, clamp to [0.1, 5],
then correct the pan so the mouse point stays fixed:
`pan' = mouse - (mouse - pan) * (scale'/oldScale)`. -/
def onWheel (deltaY mouseX mouseY : ℚ) (ed : ScenarioEditor) :
    ScenarioEditor :=
  let oldScale := ed.scale
  let scaled := if deltaY < 0 then ed.scale * (1 + 1/10)
                else ed.scale / (1 + 1/10)
  let newScale := max (1/10) (min 5 scaled)
  let scaleChange := newScale / oldScale
  { ed with
    scale := newScale,
    panX := mouseX - (mouseX - ed.panX) * scaleChange,
    panY := mouseY - (mouseY - ed.panY) * scaleChange }

/-- `handlePinchZoom(e)`: from the current two-finger distance, when a
previous distance is remembered, rescale by `1 + (distΔ * 0.01)` and clamp
to [0.1, 5] — the pan is NOT recomputed; always remember the current
distance. -/
def handlePinchZoom (currentDistance : ℚ) (ed : ScenarioEditor) :
    ScenarioEditor :=
  match ed.lastPinchDistance with
  | some lastDist =>
      let delta := currentDistance - lastDist
      let zoomFactor := delta * (1/100)
      { ed with
        scale := max (1/10) (min 5 (ed.scale * (1 + zoomFactor))),
        lastPinchDistance := some currentDistance }
  | none => { ed with lastPinchDistance := some currentDistance }

/-- `zoomIn()`: `scale *= 1.1; scale = Math.min(5, scale)`. -/
def zoomIn (ed : ScenarioEditor) : ScenarioEditor :=
  { ed with scale := min 5 (ed.scale * (11/10)) }

/-- `zoomOut()`: `scale /= 1.1; scale = Math.max(0.1, scale)`. -/
def zoomOut (ed : ScenarioEditor) : ScenarioEditor :=
  { ed with scale := max (1/10) (ed.scale / (11/10)) }

/-- One zoom-affecting input event, for stating the cumulative clamp
invariant over arbitrary interaction sequences. -/
inductive ZoomOp where
  | wheel (deltaY mouseX mouseY : ℚ)
  | zoomInBtn
  | zoomOutBtn
  | pinch (currentDistance : ℚ)
deriving DecidableEq

/-- Dispatch one zoom input to its handler. -/
def applyZoomOp (ed : ScenarioEditor) (op : ZoomOp) : ScenarioEditor :=
  match op with
  | ZoomOp.wheel deltaY mouseX mouseY => onWheel deltaY mouseX mouseY ed
  | ZoomOp.zoomInBtn => zoomIn ed
  | ZoomOp.zoomOutBtn => zoomOut ed
  | ZoomOp.pinch currentDistance => handlePinchZoom currentDistance ed

/-- A finite sequence of zoom inputs applied in order. -/
def applyZoomOps (ed : ScenarioEditor) (ops : List ZoomOp) : ScenarioEditor :=
  ops.foldl applyZoomOp ed

/-- The screen-to-graph transform of the editor:
`gx = (sx - panX) / scale` (same formula for y). -/
def graphCoord (pan scaleV screenCoord : ℚ) : ℚ :=
  (screenCoord - pan) / scaleV

/-- A structural issue found by `validateScenario`; `isolated` carries the
filtered list of isolated nodes, which the source aggregates into the single
message `Найдены изолированные узлы: ...`. -/
inductive Issue where
  | missingStart
  | missingEnd
  | isolated (isolatedNodes : List Node)
deriving DecidableEq

/-- The message text of an issue as pushed onto `issues` in the source. -/
def issueText : Issue → String
  | Issue.missingStart => "Отсутствует начальный узел"
  | Issue.missingEnd => "Отсутствует конечный узел"
  | Issue.isolated ns =>
      "Найдены изолированные узлы: " ++
        String.intercalate ", " (ns.map (fun n => n.title))

/-- The `connectedNodeIds` set of `validateScenario`: every id occurring in
a `from` or `to` field of any connection. -/
def connectedNodeIds (connections : List Connection) : List Nat :=
  connections.foldl (fun acc conn => acc ++ [conn.fromId, conn.toId]) []

/-- The issue list computed by `validateScenario` on a non-empty graph:
missing start node, missing end node, then one aggregated isolated-nodes
issue when the filter `!connectedNodeIds.has(n.id) && n.type !== 'start'
&& n.type !== 'end'` is non-empty. -/
def validateIssues (nodes : List Node) (connections : List Connection) :
    List Issue :=
  let hasStart := nodes.any (fun n => n.type == "start")
  let hasEnd := nodes.any (fun n => n.type == "end")
  let ids := connectedNodeIds connections
  let isolatedNodes := nodes.filter
    (fun n => !(ids.contains n.id) && !(n.type == "start") &&
      !(n.type == "end"))
  (if hasStart then [] else [Issue.missingStart]) ++
  (if hasEnd then [] else [Issue.missingEnd]) ++
  (if isolatedNodes.isEmpty then [] else [Issue.isolated isolatedNodes])

/-- `saveScenario()`: on an empty node list, emit the warning
`Нет данных для сохранения` and return at once; otherwise serialize and
emit progress/success notifications. The graph state is never mutated. -/
def saveScenario (ed : ScenarioEditor) : ScenarioEditor × List Notif :=
  if ed.nodes.isEmpty then
    (ed, [{ message := "Нет данных для сохранения", severity := "warning" }])
  else
    (ed, [{ message := "Сохранение сценария...", severity := "info" },
          { message := "Сценарий сохранен успешно", severity := "success" }])

/-- `runScenario()`: on an empty node list, emit the warning
`Нет сценария для запуска` and return at once; otherwise emit
progress/success notifications. The graph state is never mutated. -/
def runScenario (ed : ScenarioEditor) : ScenarioEditor × List Notif :=
  if ed.nodes.isEmpty then
    (ed, [{ message := "Нет сценария для запуска", severity := "warning" }])
  else
    (ed, [{ message := "Запуск сценария...", severity := "info" },
          { message := "Сценарий выполнен успешно", severity := "success" }])

/-- `validateScenario()`: on an empty node list, emit the warning
`Нет сценария для проверки` and return at once; otherwise compute the issue
list and report success or the joined issue messages. The graph state is
never mutated. -/
def validateScenario (ed : ScenarioEditor) : ScenarioEditor × List Notif :=
  if ed.nodes.isEmpty then
    (ed, [{ message := "Нет сценария для проверки", severity := "warning" }])
  else
    let issues := validateIssues ed.nodes ed.connections
    if issues.isEmpty then
      (ed, [{ message := "Проверка сценария...", severity := "info" },
            { message := "Сценарий прошел проверку успешно",
              severity := "success" }])
    else
      (ed, [{ message := "Проверка сценария...", severity := "info" },
            { message := "Найдены проблемы: " ++
                String.intercalate "; " (issues.map issueText),
              severity := "warning" }])

/-! ### Helper lemmas -/

/-- Finding the first hit equals taking the head of the filtered list. -/
theorem find?_eq_head?_filter {α : Type} (p : α → Bool) (l : List α) :
    l.find? p = (l.filter p).head? := by
  induction l with
  | nil => rfl
  | cons a l ih =>
    cases h : p a with
    | true =>
        rw [List.find?_cons_of_pos _ h, List.filter_cons_of_pos h,
          List.head?_cons]
    | false =>
        rw [List.find?_cons_of_neg _ (by simp [h]),
          List.filter_cons_of_neg (by simp [h]), ih]

/-- The `connectedNodeIds` accumulator loop flattens to a `flatMap`. -/
theorem connectedNodeIds_eq_flatMap (l : List Connection) :
    connectedNodeIds l = l.flatMap (fun c => [c.fromId, c.toId]) := by
  suffices h : ∀ acc : List Nat,
      l.foldl (fun acc conn => acc ++ [conn.fromId, conn.toId]) acc =
        acc ++ l.flatMap (fun c => [c.fromId, c.toId]) by
    simpa [connectedNodeIds] using h []
  induction l with
  | nil => intro acc; simp
  | cons c l ih => intro acc; simp [List.foldl_cons, ih]

/-- Membership in `connectedNodeIds`: an id is connected iff some connection
references it. -/
theorem mem_connectedNodeIds {connections : List Connection} {i : Nat} :
    i ∈ connectedNodeIds connections ↔
      ∃ c ∈ connections, c.fromId = i ∨ c.toId = i := by
  simp only [connectedNodeIds_eq_flatMap, List.mem_flatMap, List.mem_cons,
    List.mem_singleton, List.not_mem_nil, or_false]
  constructor
  · rintro ⟨c, hc, h | h⟩
    · exact ⟨c, hc, Or.inl h.symm⟩
    · exact ⟨c, hc, Or.inr h.symm⟩
  · rintro ⟨c, hc, h | h⟩
    · exact ⟨c, hc, Or.inl h.symm⟩
    · exact ⟨c, hc, Or.inr h.symm⟩

/-! ### Claim theorems -/

/-- C6: `getNodeAt` returns the most-recently-added (last-inserted) node
among all nodes whose axis-aligned bounding box contains the point, and
`none` exactly when no node's bounding box contains it. -/
theorem getNodeAt_topmost (nodes : List Node) (x y : ℚ) :
    getNodeAt nodes x y =
      (nodes.filter (fun n => nodeContains n x y)).getLast? ∧
    (getNodeAt nodes x y = none ↔
      ∀ n ∈ nodes, nodeContains n x y = false) := by
  have h : getNodeAt nodes x y =
      (nodes.filter (fun n => nodeContains n x y)).getLast? := by
    rw [getNodeAt, find?_eq_head?_filter, List.filter_reverse,
      ← List.getLast?_eq_head?_reverse]
  refine ⟨h, ?_⟩
  rw [h, List.getLast?_eq_none_iff, List.filter_eq_nil_iff]
  simp

/-- C8: calling `removeNode` with a node that is not in the live node set is
a no-op: neither the node list nor the connection list changes. -/
theorem removeNode_absent_noop (ed : ScenarioEditor) (node : Node)
    (h : node ∉ ed.nodes) : removeNode node ed = ed := by
  simp [removeNode, h]

/-- Witness for C8 at a concrete state: removing a node from an editor that
does not hold it leaves the editor unchanged. -/
theorem removeNode_absent_noop_witness :
    removeNode (mkNode 7 "action" 0 0)
        ({ nodes := [mkNode 1 "state" 0 0], connections := [],
           scale := 1, panX := 0, panY := 0,
           lastPinchDistance := none } : ScenarioEditor) =
      ({ nodes := [mkNode 1 "state" 0 0], connections := [],
         scale := 1, panX := 0, panY := 0,
         lastPinchDistance := none } : ScenarioEditor) :=
  removeNode_absent_noop _ _ (by decide)

/-- C10: `zoomIn` and `zoomOut` modify only `scale` (multiply by 1.1 and
clamp above at 5, resp. divide by 1.1 and clamp below at 0.1); `panX`,
`panY`, the node list and the connection list are unchanged. -/
theorem zoom_buttons_only_change_scale (ed : ScenarioEditor) :
    (zoomIn ed).scale = min 5 (ed.scale * (11/10)) ∧
    (zoomIn ed).panX = ed.panX ∧ (zoomIn ed).panY = ed.panY ∧
    (zoomIn ed).nodes = ed.nodes ∧
    (zoomIn ed).connections = ed.connections ∧
    (zoomOut ed).scale = max (1/10) (ed.scale / (11/10)) ∧
    (zoomOut ed).panX = ed.panX ∧ (zoomOut ed).panY = ed.panY ∧
    (zoomOut ed).nodes = ed.nodes ∧
    (zoomOut ed).connections = ed.connections :=
  ⟨rfl, rfl, rfl, rfl, rfl, rfl, rfl, rfl, rfl, rfl⟩

/-- C7: on an empty node set, `saveScenario`, `runScenario` and
`validateScenario` each detect the empty workspace synchronously, emit
exactly one advisory warning notification, and leave the editor state
(nodes, connections, viewport) unchanged. -/
theorem empty_workspace_advisory (ed : ScenarioEditor)
    (h : ed.nodes = []) :
    saveScenario ed =
      (ed, [{ message := "Нет данных для сохранения",
              severity := "warning" }]) ∧
    runScenario ed =
      (ed, [{ message := "Нет сценария для запуска",
              severity := "warning" }]) ∧
    validateScenario ed =
      (ed, [{ message := "Нет сценария для проверки",
              severity := "warning" }]) := by
  refine ⟨?_, ?_, ?_⟩ <;> simp [saveScenario, runScenario, validateScenario, h]

/-- Witness for C7 at the initial (empty) editor state. -/
theorem empty_workspace_advisory_witness :
    saveScenario initialEditor =
      (initialEditor, [{ message := "Нет данных для сохранения",
                         severity := "warning" }]) ∧
    runScenario initialEditor =
      (initialEditor, [{ message := "Нет сценария для запуска",
                         severity := "warning" }]) ∧
    validateScenario initialEditor =
      (initialEditor, [{ message := "Нет сценария для проверки",
                         severity := "warning" }]) :=
  empty_workspace_advisory initialEditor rfl

/-- C1: for a node in the live node set, `removeNode` removes it from the
node list (splice of its first occurrence) and, in the same step, filters
out every connection whose `from` or `to` equals its id, so afterwards no
connection references the deleted node's id. -/
theorem removeNode_no_dangling (ed : ScenarioEditor) (node : Node)
    (hmem : node ∈ ed.nodes) (hnd : ed.nodes.Nodup) :
    node ∉ (removeNode node ed).nodes ∧
    (removeNode node ed).nodes = ed.nodes.erase node ∧
    ∀ conn ∈ (removeNode node ed).connections,
      conn.fromId ≠ node.id ∧ conn.toId ≠ node.id := by
  rw [removeNode, if_pos hmem]
  refine ⟨hnd.not_mem_erase, rfl, ?_⟩
  intro conn hc
  have h := List.of_mem_filter hc
  simp only [Bool.and_eq_true, Bool.not_eq_true', beq_eq_false_iff_ne] at h
  exact h

/-- Witness for C1: deleting the single node of a two-connection graph
erases it and leaves no connection referencing its id. -/
theorem removeNode_no_dangling_witness :
    mkNode 5 "state" 0 0 ∉
      (removeNode (mkNode 5 "state" 0 0)
        ({ nodes := [mkNode 5 "state" 0 0],
           connections := [{ fromId := 5, toId := 9, color := "#3498db",
                             dashed := false },
                           { fromId := 2, toId := 3, color := "#2ecc71",
                             dashed := false }],
           scale := 1, panX := 0, panY := 0,
           lastPinchDistance := none } : ScenarioEditor)).nodes ∧
    (removeNode (mkNode 5 "state" 0 0)
        ({ nodes := [mkNode 5 "state" 0 0],
           connections := [{ fromId := 5, toId := 9, color := "#3498db",
                             dashed := false },
                           { fromId := 2, toId := 3, color := "#2ecc71",
                             dashed := false }],
           scale := 1, panX := 0, panY := 0,
           lastPinchDistance := none } : ScenarioEditor)).nodes =
      [mkNode 5 "state" 0 0].erase (mkNode 5 "state" 0 0) ∧
    ∀ conn ∈ (removeNode (mkNode 5 "state" 0 0)
        ({ nodes := [mkNode 5 "state" 0 0],
           connections := [{ fromId := 5, toId := 9, color := "#3498db",
                             dashed := false },
                           { fromId := 2, toId := 3, color := "#2ecc71",
                             dashed := false }],
           scale := 1, panX := 0, panY := 0,
           lastPinchDistance := none } : ScenarioEditor)).connections,
      conn.fromId ≠ (mkNode 5 "state" 0 0).id ∧
      conn.toId ≠ (mkNode 5 "state" 0 0).id :=
  removeNode_no_dangling _ _ (by decide) (by decide)

/-- C2 counterexample: two `addNode` calls in the same millisecond (the
same `Date.now()` reading, here 100) construct two live nodes with the same
id, so the id drawn by the second call is NOT distinct from the id of a
node already in the live node set. -/
theorem addNode_same_millisecond_duplicate_id :
    ((addNode 100 "action" 5 5
        (addNode 100 "state" 0 0 initialEditor)).nodes.map Node.id) =
      [100, 100] ∧
    ¬ ((addNode 100 "action" 5 5
        (addNode 100 "state" 0 0 initialEditor)).nodes.map Node.id).Nodup :=
  ⟨rfl, by decide⟩

/-- C2 (amended): provided the `Date.now()` reading of the call differs
from the id of every live node (as when successive calls land in distinct
milliseconds), `addNode` appends a node whose id is distinct from every
live node's id, and uniqueness of ids across the live node set is
preserved. -/
theorem addNode_fresh_id_unique (ed : ScenarioEditor) (now : Nat)
    (type : String) (x y : ℚ)
    (hfresh : ∀ n ∈ ed.nodes, n.id ≠ now) :
    (addNode now type x y ed).nodes = ed.nodes ++ [mkNode now type x y] ∧
    (∀ n ∈ ed.nodes, n.id ≠ (mkNode now type x y).id) ∧
    ((ed.nodes.map Node.id).Nodup →
      ((addNode now type x y ed).nodes.map Node.id).Nodup) := by
  refine ⟨rfl, fun n hn => hfresh n hn, fun hnd => ?_⟩
  rw [addNode]
  simp only [List.map_append, List.map_cons, List.map_nil]
  rw [List.nodup_append]
  refine ⟨hnd, List.nodup_singleton _, ?_⟩
  intro i hi hsing
  rcases List.mem_map.1 hi with ⟨n, hn, rfl⟩
  simp only [mkNode, List.mem_singleton] at hsing
  exact hfresh n hn hsing

/-- Witness for C2 (amended): a second call in a later millisecond keeps
the id set duplicate-free. -/
theorem addNode_fresh_id_unique_witness :
    (addNode 200 "action" 5 5
        (addNode 100 "state" 0 0 initialEditor)).nodes =
      (addNode 100 "state" 0 0 initialEditor).nodes ++
        [mkNode 200 "action" 5 5] ∧
    (∀ n ∈ (addNode 100 "state" 0 0 initialEditor).nodes,
      n.id ≠ (mkNode 200 "action" 5 5).id) ∧
    (((addNode 100 "state" 0 0 initialEditor).nodes.map Node.id).Nodup →
      ((addNode 200 "action" 5 5
          (addNode 100 "state" 0 0 initialEditor)).nodes.map
        Node.id).Nodup) :=
  addNode_fresh_id_unique _ 200 "action" 5 5 (by decide)

/-- C9: `addNode` succeeds for every kind string; a kind outside the six
known ones yields a node with fallback title `Узел`, fallback color
`#95a5a6`, size 120×80, and only the base properties (id, name,
description, enabled) with no kind-specific fields. -/
theorem addNode_unknown_type_defaults (ed : ScenarioEditor) (now : Nat)
    (type : String) (x y : ℚ)
    (h : type ∉ ["start", "state", "action", "condition", "event", "end"]) :
    (addNode now type x y ed).nodes =
      ed.nodes ++
        [{ id := now, type := type, x := x, y := y, width := 120,
           height := 80, title := "Узел", color := "#95a5a6",
           properties := { pid := now, name := "Узел", description := "",
                           enabled := true,
                           extra := ExtraProps.base } }] := by
  simp only [List.mem_cons, List.not_mem_nil, or_false, not_or] at h
  obtain ⟨h1, h2, h3, h4, h5, h6⟩ := h
  rw [addNode, mkNode, getNodeTitle, getNodeColor, getDefaultProperties]
  simp [h1, h2, h3, h4, h5, h6, getNodeTitle]

/-- Witness for C9 at the unknown kind `portal`. -/
theorem addNode_unknown_type_defaults_witness :
    (addNode 42 "portal" 10 20 initialEditor).nodes =
      initialEditor.nodes ++
        [{ id := 42, type := "portal", x := 10, y := 20, width := 120,
           height := 80, title := "Узел", color := "#95a5a6",
           properties := { pid := 42, name := "Узел", description := "",
                           enabled := true,
                           extra := ExtraProps.base } }] :=
  addNode_unknown_type_defaults initialEditor 42 "portal" 10 20 (by decide)

/-- C3 counterexample: a two-finger pinch step (previous distance 100,
current distance 200, so the scale doubles) does NOT recompute the pan, so
the graph-space point under the anchor (100, 100) moves from 100 to 50 —
pinch zoom is not anchor-invariant. -/
theorem pinch_zoom_not_anchor_invariant :
    graphCoord (handlePinchZoom 200
        ({ nodes := [], connections := [], scale := 1, panX := 0,
           panY := 0,
           lastPinchDistance := some 100 } : ScenarioEditor)).panX
      (handlePinchZoom 200
        ({ nodes := [], connections := [], scale := 1, panX := 0,
           panY := 0,
           lastPinchDistance := some 100 } : ScenarioEditor)).scale 100 ≠
    graphCoord
      ({ nodes := [], connections := [], scale := 1, panX := 0, panY := 0,
         lastPinchDistance := some 100 } : ScenarioEditor).panX
      ({ nodes := [], connections := [], scale := 1, panX := 0, panY := 0,
         lastPinchDistance := some 100 } : ScenarioEditor).scale 100 := by
  norm_num [handlePinchZoom, graphCoord]

/-- C3 (amended): wheel zoom scales by the 10% step, clamps to [0.1, 5] and
recomputes the pan as `pan' = anchor - (anchor - pan) * (scale'/scale)`, so
it is anchor-invariant: the graph-space point under the mouse anchor is
unchanged (exactly, in rational arithmetic). Pinch zoom only rescales and
clamps, leaving the pan unchanged, and is not anchor-invariant. -/
theorem onWheel_anchor_invariant (ed : ScenarioEditor)
    (deltaY mouseX mouseY : ℚ) (hs : 0 < ed.scale) :
    graphCoord (onWheel deltaY mouseX mouseY ed).panX
        (onWheel deltaY mouseX mouseY ed).scale mouseX =
      graphCoord ed.panX ed.scale mouseX ∧
    graphCoord (onWheel deltaY mouseX mouseY ed).panY
        (onWheel deltaY mouseX mouseY ed).scale mouseY =
      graphCoord ed.panY ed.scale mouseY := by
  have hs' : (0:ℚ) < max (1/10) (min 5 (if deltaY < 0 then
      ed.scale * (1 + 1/10) else ed.scale / (1 + 1/10))) :=
    lt_of_lt_of_le (by norm_num) (le_max_left _ _)
  have h0 : ed.scale ≠ 0 := ne_of_gt hs
  have h1 : max (1/10) (min 5 (if deltaY < 0 then
      ed.scale * (1 + 1/10) else ed.scale / (1 + 1/10))) ≠ (0:ℚ) :=
    ne_of_gt hs'
  constructor <;>
    · simp only [onWheel, graphCoord]
      field_simp
      ring

/-- Witness for C3 (amended) at a concrete zoom-in step: scale 2, pan
(30, 40), anchor (100, 60). -/
theorem onWheel_anchor_invariant_witness :
    graphCoord (onWheel (-3) 100 60
        ({ nodes := [], connections := [], scale := 2, panX := 30,
           panY := 40,
           lastPinchDistance := none } : ScenarioEditor)).panX
      (onWheel (-3) 100 60
        ({ nodes := [], connections := [], scale := 2, panX := 30,
           panY := 40,
           lastPinchDistance := none } : ScenarioEditor)).scale 100 =
      graphCoord 30 2 100 ∧
    graphCoord (onWheel (-3) 100 60
        ({ nodes := [], connections := [], scale := 2, panX := 30,
           panY := 40,
           lastPinchDistance := none } : ScenarioEditor)).panY
      (onWheel (-3) 100 60
        ({ nodes := [], connections := [], scale := 2, panX := 30,
           panY := 40,
           lastPinchDistance := none } : ScenarioEditor)).scale 60 =
      graphCoord 40 2 60 :=
  onWheel_anchor_invariant _ (-3) 100 60 (by norm_num)

/-- One zoom input keeps the scale inside [0.1, 5] (each handler either
clamps on both sides, or clamps on one side while moving away from the
other bound). -/
theorem applyZoomOp_scale_bounds (ed : ScenarioEditor) (op : ZoomOp)
    (hlo : 1/10 ≤ ed.scale) (hhi : ed.scale ≤ 5) :
    1/10 ≤ (applyZoomOp ed op).scale ∧ (applyZoomOp ed op).scale ≤ 5 := by
  cases op with
  | wheel deltaY mouseX mouseY =>
      exact ⟨le_max_left _ _, max_le (by norm_num) (min_le_left _ _)⟩
  | zoomInBtn =>
      refine ⟨le_min (by norm_num) (by nlinarith), min_le_left _ _⟩
  | zoomOutBtn =>
      refine ⟨le_max_left _ _, max_le (by norm_num) ?_⟩
      rw [div_le_iff₀ (by norm_num : (0:ℚ) < 11/10)]
      linarith
  | pinch currentDistance =>
      show 1/10 ≤ (handlePinchZoom currentDistance ed).scale ∧
        (handlePinchZoom currentDistance ed).scale ≤ 5
      rw [handlePinchZoom]
      cases ed.lastPinchDistance with
      | none => exact ⟨hlo, hhi⟩
      | some lastDist =>
          exact ⟨le_max_left _ _, max_le (by norm_num) (min_le_left _ _)⟩

/-- C5: starting from any scale in [0.1, 5], after any finite sequence of
zoom inputs (wheel steps, zoom buttons, pinch steps) of any magnitude and
direction, the scale still lies in [0.1, 5]; since every prefix of a
sequence is a sequence, the bound holds after each operation. -/
theorem scale_always_clamped (ops : List ZoomOp) (ed : ScenarioEditor)
    (hlo : 1/10 ≤ ed.scale) (hhi : ed.scale ≤ 5) :
    1/10 ≤ (applyZoomOps ed ops).scale ∧ (applyZoomOps ed ops).scale ≤ 5 := by
  induction ops generalizing ed with
  | nil => exact ⟨hlo, hhi⟩
  | cons op ops ih =>
      have h := applyZoomOp_scale_bounds ed op hlo hhi
      exact ih (applyZoomOp ed op) h.1 h.2

/-- Witness for C5: a violent sequence (huge wheel zoom-outs, a pinch
spreading by 10000, both buttons) starting from the initial scale 1 stays
in [0.1, 5]. -/
theorem scale_always_clamped_witness :
    1/10 ≤ (applyZoomOps initialEditor
        [ZoomOp.wheel 3 0 0, ZoomOp.wheel 3 0 0, ZoomOp.pinch 1,
         ZoomOp.pinch 10001, ZoomOp.zoomInBtn, ZoomOp.zoomOutBtn,
         ZoomOp.wheel (-1) 50 50]).scale ∧
    (applyZoomOps initialEditor
        [ZoomOp.wheel 3 0 0, ZoomOp.wheel 3 0 0, ZoomOp.pinch 1,
         ZoomOp.pinch 10001, ZoomOp.zoomInBtn, ZoomOp.zoomOutBtn,
         ZoomOp.wheel (-1) 50 50]).scale ≤ 5 :=
  scale_always_clamped _ initialEditor (by norm_num [initialEditor])
    (by norm_num [initialEditor])

/-- The missing-start issue is reported iff no node has kind `start`. -/
theorem missingStart_mem_validateIssues (nodes : List Node)
    (connections : List Connection) :
    Issue.missingStart ∈ validateIssues nodes connections ↔
      ∀ n ∈ nodes, n.type ≠ "start" := by
  simp [validateIssues, List.mem_append, List.any_eq_true]

/-- The missing-end issue is reported iff no node has kind `end`. -/
theorem missingEnd_mem_validateIssues (nodes : List Node)
    (connections : List Connection) :
    Issue.missingEnd ∈ validateIssues nodes connections ↔
      ∀ n ∈ nodes, n.type ≠ "end" := by
  simp [validateIssues, List.mem_append, List.any_eq_true]

/-- A node is reported in the isolated-nodes issue iff it is not of kind
`start`/`end` and no connection references its id. -/
theorem isolated_mem_validateIssues (nodes : List Node)
    (connections : List Connection) (n : Node) (hn : n ∈ nodes) :
    (∃ ns, Issue.isolated ns ∈ validateIssues nodes connections ∧
        n ∈ ns) ↔
      (n.type ≠ "start" ∧ n.type ≠ "end" ∧
        ∀ c ∈ connections, c.fromId ≠ n.id ∧ c.toId ≠ n.id) := by
  constructor
  · rintro ⟨ns, hns, hmem⟩
    simp only [validateIssues, List.mem_append, List.mem_ite_nil_left,
      List.mem_singleton] at hns
    rcases hns with (⟨_, h⟩ | ⟨_, h⟩) | ⟨_, h⟩
    · exact absurd h (by simp)
    · exact absurd h (by simp)
    · rcases Issue.isolated.inj h with rfl
      have hflt := List.mem_filter.1 hmem
      simp only [Bool.and_eq_true, Bool.not_eq_true', beq_eq_false_iff_ne,
        List.contains, List.elem_eq_mem, decide_eq_false_iff_not] at hflt
      refine ⟨hflt.2.1.2, hflt.2.2, ?_⟩
      intro c hc
      have hnotmem := hflt.2.1.1
      constructor
      · intro heq
        exact hnotmem (mem_connectedNodeIds.2 ⟨c, hc, Or.inl heq⟩)
      · intro heq
        exact hnotmem (mem_connectedNodeIds.2 ⟨c, hc, Or.inr heq⟩)
  · rintro ⟨hstart, hend, hconn⟩
    have hnotconn : n.id ∉ connectedNodeIds connections := by
      intro hmem
      rcases mem_connectedNodeIds.1 hmem with ⟨c, hc, h | h⟩
      · exact (hconn c hc).1 h
      · exact (hconn c hc).2 h
    have hfilter : n ∈ nodes.filter
        (fun m => !((connectedNodeIds connections).contains m.id) &&
          !(m.type == "start") && !(m.type == "end")) := by
      refine List.mem_filter.2 ⟨hn, ?_⟩
      simp only [Bool.and_eq_true, Bool.not_eq_true', beq_eq_false_iff_ne,
        List.contains, List.elem_eq_mem, decide_eq_false_iff_not]
      exact ⟨⟨hnotconn, hstart⟩, hend⟩
    have hne : (nodes.filter
        (fun m => !((connectedNodeIds connections).contains m.id) &&
          !(m.type == "start") && !(m.type == "end"))).isEmpty = false := by
      rw [List.isEmpty_eq_false]
      exact List.ne_nil_of_mem hfilter
    refine ⟨_, ?_, hfilter⟩
    simp only [validateIssues, List.mem_append, List.mem_ite_nil_left,
      List.mem_singleton]
    refine Or.inr ⟨?_, trivial⟩
    simp only [List.isEmpty_eq_true]
    intro h
    rw [h] at hfilter
    simp at hfilter

/-- C4: on a non-empty graph, `validateScenario`'s issue computation
reports a missing-start issue iff no node has kind `start`, a missing-end
issue iff no node has kind `end`, and lists a node as isolated iff it is
not of kind `start`/`end` and its id appears in no connection's `from` or
`to`; in particular, on a graph with one start node, one end node and one
unconnected state node it yields exactly one isolated-node issue naming
that node and no missing-start or missing-end issue. -/
theorem validateIssues_characterization :
    (∀ (nodes : List Node) (connections : List Connection), nodes ≠ [] →
      (Issue.missingStart ∈ validateIssues nodes connections ↔
        ∀ n ∈ nodes, n.type ≠ "start") ∧
      (Issue.missingEnd ∈ validateIssues nodes connections ↔
        ∀ n ∈ nodes, n.type ≠ "end") ∧
      (∀ n ∈ nodes,
        (∃ ns, Issue.isolated ns ∈ validateIssues nodes connections ∧
            n ∈ ns) ↔
          (n.type ≠ "start" ∧ n.type ≠ "end" ∧
            ∀ c ∈ connections, c.fromId ≠ n.id ∧ c.toId ≠ n.id))) ∧
    validateIssues
        [mkNode 1 "start" 100 100, mkNode 2 "end" 300 100,
         mkNode 3 "state" 500 100] [] =
      [Issue.isolated [mkNode 3 "state" 500 100]] := by
  refine ⟨fun nodes connections _ => ⟨?_, ?_, fun n hn => ?_⟩, ?_⟩
  · exact missingStart_mem_validateIssues nodes connections
  · exact missingEnd_mem_validateIssues nodes connections
  · exact isolated_mem_validateIssues nodes connections n hn
  · rfl

/-- Witness for C4 at the concrete start/end/lone-state graph. -/
theorem validateIssues_characterization_witness :
    (Issue.missingStart ∈ validateIssues
        [mkNode 1 "start" 100 100, mkNode 2 "end" 300 100,
         mkNode 3 "state" 500 100] [] ↔
      ∀ n ∈ [mkNode 1 "start" 100 100, mkNode 2 "end" 300 100,
             mkNode 3 "state" 500 100], n.type ≠ "start") ∧
    (Issue.missingEnd ∈ validateIssues
        [mkNode 1 "start" 100 100, mkNode 2 "end" 300 100,
         mkNode 3 "state" 500 100] [] ↔
      ∀ n ∈ [mkNode 1 "start" 100 100, mkNode 2 "end" 300 100,
             mkNode 3 "state" 500 100], n.type ≠ "end") ∧
    (∀ n ∈ [mkNode 1 "start" 100 100, mkNode 2 "end" 300 100,
            mkNode 3 "state" 500 100],
      (∃ ns, Issue.isolated ns ∈ validateIssues
          [mkNode 1 "start" 100 100, mkNode 2 "end" 300 100,
           mkNode 3 "state" 500 100] [] ∧ n ∈ ns) ↔
        (n.type ≠ "start" ∧ n.type ≠ "end" ∧
          ∀ c ∈ ([] : List Connection),
            c.fromId ≠ n.id ∧ c.toId ≠ n.id)) :=
  validateIssues_characterization.1
    [mkNode 1 "start" 100 100, mkNode 2 "end" 300 100,
     mkNode 3 "state" 500 100] [] (by decide)

end VRPlatform
